import Mathlib

/-!
Verification of the NeoGit project-inference engine and template document
generator, shallowly embedded from the Python sources
(`neogit/utils/file_utils.py`, `neogit/ai/project_analyzer.py`,
`neogit/ai/readme_generator.py`).

Strings are modelled by Lean `String`; Python's `pat in s` substring test
is modelled by an executable scan over the underlying character lists.
Byte buffers are modelled by `List Nat` (each element a byte value).
Where Python reads the file system or the network, the embedding passes
the observed data explicitly (directory trees, file contents, HTTP
outcomes), keeping every function pure and executable.
-/

namespace NeoGit

/-- Boolean substring test on character lists: `listContainsSub hay needle`
is `true` iff `needle` occurs contiguously inside `hay`.  Mirrors Python's
`needle in hay`. -/
def listContainsSub (hay needle : List Char) : Bool :=
  needle.isPrefixOf hay ||
    match hay with
    | [] => false
    | _ :: t => listContainsSub t needle

/-- Python's `needle in hay` for strings. -/
def strContains (hay needle : String) : Bool :=
  listContainsSub hay.data needle.data

/-- Python's `s.lower()` (ASCII case mapping, which covers every pattern
the analyzer lower-cases against). -/
def strLower (s : String) : String :=
  String.mk (s.data.map Char.toLower)

/-! ## File classifier (`neogit/utils/file_utils.py`) -/

/-- `EXCLUDE_PATTERNS = ['.git', 'node_modules', '__pycache__', 'venv',
'.DS_Store', '.mypy_cache']` -/
def EXCLUDE_PATTERNS : List String :=
  [".git", "node_modules", "__pycache__", "venv", ".DS_Store", ".mypy_cache"]

/-- `MAX_FILE_SIZE = 5 * 1024 * 1024` -/
def MAX_FILE_SIZE : Nat := 5 * 1024 * 1024

/-- `should_exclude(file_path) = any(pattern in file_path for pattern in
EXCLUDE_PATTERNS)` — a plain substring test over the whole path string. -/
def should_exclude (file_path : String) : Bool :=
  EXCLUDE_PATTERNS.any (fun pattern => strContains file_path pattern)

/-- The allow-set `textchars = bytearray({7,8,9,10,12,13,27} |
set(range(0x20, 0x100)) - {0x7f})` from `is_binary`. -/
def textchar (b : Nat) : Bool :=
  b ∈ ([7, 8, 9, 10, 12, 13, 27] : List Nat) ||
    (0x20 ≤ b && b < 0x100 && b ≠ 0x7f)

/-- `content.translate(None, textchars)`: deleting every byte that lies in
the allow-set. -/
def translateDelete (content : List Nat) : List Nat :=
  content.filter (fun b => !textchar b)

/-- `is_binary(content) = bool(content.translate(None, textchars))`: true
iff some byte survives deletion of the allow-set. -/
def is_binary (content : List Nat) : Bool :=
  !(translateDelete content).isEmpty

/-- `is_large(file_path) = os.path.getsize(file_path) > MAX_FILE_SIZE`,
with the size obtained from the file system passed explicitly. -/
def is_large (byteLength : Nat) : Bool :=
  MAX_FILE_SIZE < byteLength

/-- Declarative form of the allow-set actually used by `is_binary`:
bell, backspace, tab, newline, form-feed, carriage-return, escape, and
bytes 0x20–0xFF excluding 0x7F. -/
def allowedByte (b : Nat) : Prop :=
  b = 7 ∨ b = 8 ∨ b = 9 ∨ b = 10 ∨ b = 12 ∨ b = 13 ∨ b = 27 ∨
    (0x20 ≤ b ∧ b < 0x100 ∧ b ≠ 0x7f)

/-! ## Project scanner (`ProjectAnalyzer._get_project_files`)

The directory tree handed to `os.walk` is modelled by a pair of mutual
inductives: a node is a plain file or a directory with an ordered listing
(the order `os.listdir` happens to produce). `os.walk(path)` on a path
that does not exist, or that is not a directory, yields no triples at all
(its default `onerror=None` swallows the `OSError`), which the embedding
reflects by the `none` / `file` cases of `get_project_files`. -/

mutual
inductive FSTree : Type where
  | file : FSTree
  | dir : FSForest → FSTree

inductive FSForest : Type where
  | nil : FSForest
  | cons : String → FSTree → FSForest → FSForest
end

/-- The in-place pruning filter on `dirs`:
`not d.startswith('.') and d not in ['node_modules', '__pycache__', 'venv', '.git']` -/
def keepDir (d : String) : Bool :=
  !d.startsWith "." &&
    !(d ∈ (["node_modules", "__pycache__", "venv", ".git"] : List String))

/-- The per-file filter:
`not filename.startswith('.') and not filename.endswith(('.pyc', '.log', '.tmp'))` -/
def keepFile (f : String) : Bool :=
  !f.startsWith "." && !(f.endsWith ".pyc" || f.endsWith ".log" || f.endsWith ".tmp")

/-- `os.path.relpath(os.path.join(root, filename), project_path)` for a
walk whose current relative prefix is `pre`. -/
def relJoin (pre name : String) : String :=
  if pre = "" then name else pre ++ "/" ++ name

mutual
/-- Top-down `os.walk` restricted to what `_get_project_files` keeps:
the current directory's surviving filenames first, then the recursive
walks of its surviving subdirectories, in listing order. -/
def walkTree (pre : String) : FSTree → List String
  | .file => []
  | .dir cs => walkOwnFiles pre cs ++ walkSubdirs pre cs

/-- The filenames of the current directory that pass `keepFile`, as
relative paths. -/
def walkOwnFiles (pre : String) : FSForest → List String
  | .nil => []
  | .cons name t rest =>
    (match t with
      | .file => if keepFile name then [relJoin pre name] else []
      | .dir _ => []) ++ walkOwnFiles pre rest

/-- The recursive walks of the subdirectories that survive the in-place
pruning of `dirs`. -/
def walkSubdirs (pre : String) : FSForest → List String
  | .nil => []
  | .cons name t rest =>
    (match t with
      | .dir _ => if keepDir name then walkTree (relJoin pre name) t else []
      | .file => []) ++ walkSubdirs pre rest
end

/-- `ProjectAnalyzer._get_project_files`.  The root argument is `none`
when `project_path` does not exist and `some .file` when it exists but is
not a directory; in both cases `os.walk` produces no triples and the
function returns the empty list — it raises nothing. -/
def get_project_files (root : Option FSTree) : List String :=
  match root with
  | none => []
  | some FSTree.file => []
  | some (FSTree.dir cs) => walkTree "" (FSTree.dir cs)

/-! ## Language detection (`ProjectAnalyzer._detect_language`) -/

/-- Index of the last occurrence of `c` in `l`, if any (Python
`str.rfind`). -/
def lastIdxOf (l : List Char) (c : Char) : Option Nat :=
  match l with
  | [] => none
  | a :: t =>
    match lastIdxOf t c with
    | some i => some (i + 1)
    | none => if a = c then some 0 else none

/-- `PurePath.name`: the final path component — everything after the last
`/` (for the slash-free relative paths the analyzer produces this is the
whole string). -/
def pathName (f : String) : String :=
  String.mk ((f.data.reverse.takeWhile (fun c => c ≠ '/')).reverse)

/-- `PurePath.suffix`: with `i = name.rfind('.')`, the slice `name[i:]`
when `0 < i < len(name) - 1`, else the empty string. -/
def pathSuffix (f : String) : String :=
  let name := pathName f
  match lastIdxOf name.data '.' with
  | none => ""
  | some i =>
    if 0 < i ∧ i < name.data.length - 1 then String.mk (name.data.drop i) else ""

/-- `Path(file).suffix.lower()` -/
def extLower (f : String) : String :=
  strLower (pathSuffix f)

/-- `extensions[ext] = extensions.get(ext, 0) + 1` on an association-list
model of the Python dict (insertion-ordered, keys unique). -/
def bump : List (String × Nat) → String → List (String × Nat)
  | [], k => [(k, 1)]
  | (k', v) :: rest, k =>
    if k' = k then (k', v + 1) :: rest else (k', v) :: bump rest k

/-- One iteration of the `extensions` counting loop of `_detect_language`:
`ext = Path(file).suffix.lower(); if ext: extensions[ext] =
extensions.get(ext, 0) + 1` (empty suffixes are skipped). -/
def countStep (m : List (String × Nat)) (f : String) : List (String × Nat) :=
  if extLower f ≠ "" then bump m (extLower f) else m

/-- The `extensions` dict after the counting loop of `_detect_language`. -/
def countExts (files : List String) : List (String × Nat) :=
  files.foldl countStep []

/-- `'.py' in extensions` — key membership in the dict model. -/
def hasKey (m : List (String × Nat)) (k : String) : Bool :=
  m.any (fun p => p.1 == k)

/-- `ProjectAnalyzer._detect_language`: the fixed-priority if/elif chain
over key membership in the extension-count dict (the source binds the
dict once as `extensions`; it is written out here at each test). -/
def detect_language (files : List String) : String :=
  if hasKey (countExts files) ".py" then "Python"
  else if hasKey (countExts files) ".js" || hasKey (countExts files) ".ts" then "JavaScript/TypeScript"
  else if hasKey (countExts files) ".java" then "Java"
  else if hasKey (countExts files) ".cpp" || hasKey (countExts files) ".c" then "C/C++"
  else if hasKey (countExts files) ".go" then "Go"
  else if hasKey (countExts files) ".rs" then "Rust"
  else if hasKey (countExts files) ".rb" then "Ruby"
  else if hasKey (countExts files) ".php" then "PHP"
  else "Unknown"

/-- The recognized extensions, in no particular order. -/
def recognizedExts : List String :=
  [".py", ".js", ".ts", ".java", ".cpp", ".c", ".go", ".rs", ".rb", ".php"]

/-! ## Framework detection (`ProjectAnalyzer._detect_framework`) -/

/-- `ProjectAnalyzer._detect_framework`.  Note that the `django`, `flask`,
`fastapi`, `react`, `vue`, `angular` scans lower-case the path first,
while the `requirements.txt` and `package.json` scans test the raw path
string. -/
def detect_framework (files : List String) (language : String) : Option String :=
  if language = "Python" then
    if files.any (fun f => strContains (strLower f) "django") then some "Django"
    else if files.any (fun f => strContains (strLower f) "flask") then some "Flask"
    else if files.any (fun f => strContains (strLower f) "fastapi") then some "FastAPI"
    else if files.any (fun f => strContains f "requirements.txt") then some "Python"
    else none
  else if language = "JavaScript/TypeScript" then
    if files.any (fun f => strContains f "package.json") then some "Node.js"
    else if files.any (fun f => strContains (strLower f) "react") then some "React"
    else if files.any (fun f => strContains (strLower f) "vue") then some "Vue.js"
    else if files.any (fun f => strContains (strLower f) "angular") then some "Angular"
    else none
  else none

/-! ## Dependency extraction (`ProjectAnalyzer._extract_dependencies`)

File contents are passed explicitly: `readFile f = none` models an
`open`/read that raises (the bare `except: pass` swallows it), and the
parsed `package.json` is passed as an optional record whose `none` case
models an `open`/`json.load` failure. -/

/-- Python string-strip whitespace: space, tab, newline, carriage return,
vertical tab, form feed. -/
def isPyWs (c : Char) : Bool :=
  c = ' ' || c = '\t' || c = '\n' || c = '\x0d' || c = '\x0b' || c = '\x0c'

/-- `line.strip()` -/
def pyStrip (s : String) : String :=
  String.mk (((s.data.dropWhile isPyWs).reverse.dropWhile isPyWs).reverse)

/-- The prefix of `l` before the first occurrence of `pat`, or all of `l`
when `pat` does not occur: `l.split(pat)[0]`. -/
def takeBeforeAux (l pat : List Char) : List Char :=
  if pat.isPrefixOf l then []
  else
    match l with
    | [] => []
    | a :: t => a :: takeBeforeAux t pat

/-- `s.split(pat)[0]` for a non-empty separator `pat`. -/
def takeBeforeSub (s pat : String) : String :=
  String.mk (takeBeforeAux s.data pat.data)

/-- One line of a requirements file:
`line = line.strip(); if line and not line.startswith('#'):
dependencies.append(line.split('==')[0].split('>=')[0].split('<=')[0])` -/
def parseReqLine (line : String) : Option String :=
  let l := pyStrip line
  if l = "" then none
  else if l.startsWith "#" then none
  else some (takeBeforeSub (takeBeforeSub (takeBeforeSub l "==") ">=") "<=")

/-- `for line in f:` over a whole file content. -/
def parseReqFile (content : String) : List String :=
  (content.splitOn "\n").filterMap parseReqLine

/-- The parsed `package.json`: presence of the `dependencies` /
`devDependencies` keys and, when present, their key lists in iteration
order. -/
structure PkgJson where
  dependencies : Option (List String)
  devDependencies : Option (List String)

/-- `ProjectAnalyzer._extract_dependencies`.  `readFile` supplies the
content of each requirements-style file (`none` = the read raised and the
bare `except` swallowed it); `pkg` is the parsed root `package.json`
(`none` = `open`/`json.load` raised).  The Python `list(set(...))` is
modelled by `List.dedup`; a CPython set iterates in an unspecified
hash-dependent order, and the claims proved below depend only on the
result being duplicate-free, which any iteration order satisfies. -/
def extract_dependencies (files : List String) (language : String)
    (readFile : String → Option String) (pkg : Option PkgJson) : List String :=
  let dependencies :=
    if language = "Python" then
      let req_files := files.filter
        (fun f => strContains (strLower f) "requirements" || f.endsWith ".txt")
      req_files.foldl
        (fun acc req_file =>
          match readFile req_file with
          | none => acc
          | some content => acc ++ parseReqFile content)
        []
    else if language = "JavaScript/TypeScript" then
      if files.contains "package.json" then
        match pkg with
        | none => []
        | some data =>
          (match data.dependencies with | some ks => ks | none => []) ++
            (match data.devDependencies with | some ks => ks | none => [])
      else []
    else []
  dependencies.dedup.take 10

/-! ## Structure analysis (`ProjectAnalyzer._analyze_structure`) -/

/-- One immediate child of the project root as seen by
`self.project_path.iterdir()`: a directory, a regular file, or anything
else (for which both `is_dir()` and `is_file()` are false). -/
inductive Child : Type where
  | dir : String → Child
  | file : String → Child
  | other : String → Child
deriving DecidableEq

/-- The `structure` dict of `_analyze_structure`. -/
structure StructInfo where
  src_dirs : List String
  config_files : List String
  build_files : List String
  test_dirs : List String
deriving DecidableEq

/-- One iteration of the `for item in self.project_path.iterdir()` loop.
Directories: `if item.name in ['src', 'app', 'lib', 'source']` appends to
`src_dirs`, `elif 'test' in item.name.lower()` appends to `test_dirs`.
Files: `if any(ext in item.name.lower() for ext in
['.json', '.yaml', '.yml', '.toml', '.ini'])` appends to `config_files`,
`elif any(ext in item.name.lower() for ext in ['.lock', '.spec', 'build'])`
appends to `build_files`. -/
def structStep (s : StructInfo) (c : Child) : StructInfo :=
  match c with
  | .dir name =>
    if name ∈ (["src", "app", "lib", "source"] : List String) then
      { s with src_dirs := s.src_dirs ++ [name] }
    else if strContains (strLower name) "test" then
      { s with test_dirs := s.test_dirs ++ [name] }
    else s
  | .file name =>
    if ([".json", ".yaml", ".yml", ".toml", ".ini"] : List String).any
        (fun ext => strContains (strLower name) ext) then
      { s with config_files := s.config_files ++ [name] }
    else if ([".lock", ".spec", "build"] : List String).any
        (fun ext => strContains (strLower name) ext) then
      { s with build_files := s.build_files ++ [name] }
    else s
  | .other _ => s

/-- `ProjectAnalyzer._analyze_structure` over the root's immediate
children in listing order. -/
def analyze_structure (children : List Child) : StructInfo :=
  children.foldl structStep ⟨[], [], [], []⟩

/-! ## Derived flags -/

/-- `ProjectAnalyzer._has_tests` -/
def has_tests (files : List String) : Bool :=
  files.any (fun f => strContains (strLower f) "test" || strContains (strLower f) "spec")

/-- `ProjectAnalyzer._has_docs` -/
def has_docs (files : List String) : Bool :=
  files.any (fun f => strContains (strLower f) "readme" || strContains (strLower f) "docs")

/-- `ProjectAnalyzer._has_license` -/
def has_license (files : List String) : Bool :=
  files.any (fun f => strContains (strLower f) "license")

/-- `ProjectAnalyzer._has_requirements` -/
def has_requirements (files : List String) (language : String) : Bool :=
  if language = "Python" then
    files.any (fun f => strContains (strLower f) "requirements" || f.endsWith ".txt")
  else if language = "JavaScript/TypeScript" then
    files.contains "package.json"
  else false

/-! ## Project descriptor (`ProjectInfo` dataclass) -/

/-- The `ProjectInfo` dataclass of `project_analyzer.py`.  The Python
field `structure` is a Lean keyword, hence `structure'`. -/
structure ProjectInfo where
  name : String
  description : String
  language : String
  framework : Option String
  dependencies : List String
  files : List String
  structure' : StructInfo
  has_tests : Bool
  has_docs : Bool
  has_license : Bool
  has_requirements : Bool

/-! ## Template document generator (`readme_generator.py`)

The template strings are transcribed byte-for-byte from the source's
f-strings (escaping newlines), with each interpolation point becoming a
string concatenation. -/

/-- Python truthiness of an `Optional[str]`: `None` and `''` are falsy. -/
def pyOptTruthy : Option String → Bool
  | none => false
  | some s => !(s == "")

/-- Python `str()` display of an `Optional[str]` as an f-string value. -/
def pyOptStr : Option String → String
  | none => "None"
  | some s => s

/-- `READMEGenerator._get_install_command` -/
def get_install_command (pi : ProjectInfo) : String :=
  if pi.language = "Python" then "pip install -r requirements.txt"
  else if pi.language = "JavaScript/TypeScript" then "npm install"
  else "# Install dependencies based on your project type"

/-- `READMEGenerator._get_run_command` -/
def get_run_command (pi : ProjectInfo) : String :=
  if pi.language = "Python" then "python main.py"
  else if pi.language = "JavaScript/TypeScript" then "npm start"
  else "# Run the application based on your project type"

/-- `READMEGenerator._get_test_command` -/
def get_test_command (pi : ProjectInfo) : String :=
  if pi.language = "Python" then "python -m pytest"
  else if pi.language = "JavaScript/TypeScript" then "npm test"
  else "# Run tests based on your project type"

/-- `READMEGenerator._get_dev_install_command` -/
def get_dev_install_command (pi : ProjectInfo) : String :=
  if pi.language = "Python" then "pip install -r requirements-dev.txt"
  else if pi.language = "JavaScript/TypeScript" then "npm install --include=dev"
  else get_install_command pi

/-- `READMEGenerator._get_verify_command` -/
def get_verify_command (pi : ProjectInfo) : String :=
  if pi.has_tests then get_test_command pi
  else get_run_command pi ++ " --version"

/-- `READMEGenerator._get_configuration_section`: the `if` branch fires on
a (Python-truthy, i.e. non-empty) `config_files` list. -/
def get_configuration_section (pi : ProjectInfo) : String :=
  if pi.structure'.config_files.isEmpty then
    "\nConfiguration can be done through environment variables or by editing the source code.\n"
  else
    "\nThe project uses the following configuration files:\n" ++
      String.intercalate "\n"
        (pi.structure'.config_files.map (fun file => "- `" ++ file ++ "`")) ++
      "\n\nEdit these files to customize the application behavior.\n"

/-- `READMEGenerator._get_basic_usage` -/
def get_basic_usage (pi : ProjectInfo) : String :=
  "\n# Basic usage\n" ++ get_run_command pi ++ "\n\n# With options\n" ++
    get_run_command pi ++ " --help\n"

/-- `READMEGenerator._get_api_reference` (a constant). -/
def get_api_reference : String :=
  "\n### Core Functions\n\n- `main()`: Entry point of the application\n- `config()`: Load configuration settings\n- `run()`: Execute the main application logic\n\nFor detailed API documentation, please refer to the source code or generated documentation.\n"

/-- `READMEGenerator._simple_template` -/
def simple_template (pi : ProjectInfo) : String :=
  "# " ++ pi.name ++ "\n\n" ++ pi.description ++
    "\n\n## Installation\n\n```bash\n# Clone the repository\ngit clone <repository-url>\ncd " ++
    pi.name ++ "\n\n# Install dependencies\n" ++ get_install_command pi ++
    "\n```\n\n## Usage\n\n```bash\n# Run the project\n" ++ get_run_command pi ++
    "\n```\n\n## License\n\nThis project is licensed under the MIT License.\n"

/-- `READMEGenerator._installation_template` -/
def installation_template (pi : ProjectInfo) : String :=
  "# " ++ pi.name ++ "\n\n" ++ pi.description ++ "\n\n## Prerequisites\n\n- " ++
    pi.language ++ "\n" ++
    (if pyOptTruthy pi.framework then "- " ++ pyOptStr pi.framework else "") ++
    "\n\n## Installation\n\n### Step 1: Clone the Repository\n\n```bash\ngit clone <repository-url>\ncd " ++
    pi.name ++
    "\n```\n\n### Step 2: Install Dependencies\n\n```bash\n" ++
    get_install_command pi ++
    "\n```\n\n### Step 3: Configuration\n\n" ++
    get_configuration_section pi ++
    "\n\n### Step 4: Verify Installation\n\n```bash\n" ++
    get_verify_command pi ++
    "\n```\n\n## Troubleshooting\n\n### Common Issues\n\n1. **Dependency conflicts**: Try updating your package manager\n2. **Permission errors**: Use `sudo` for system-wide installation\n3. **Path issues**: Ensure the project is in your PATH\n\n### Getting Help\n\nIf you encounter issues:\n1. Check the [Issues](link-to-issues) page\n2. Review the documentation\n3. Contact the maintainers\n\n## License\n\nThis project is licensed under the MIT License.\n"

/-- The `lang_icons` dict lookup `lang_icons.get(project_info.language, '‚ùì')`
from `_advanced_template` (the icon strings reproduce the source file's
bytes). -/
def lang_icon (l : String) : String :=
  if l = "Python" then "üêç"
  else if l = "JavaScript/TypeScript" then "‚ö°Ô∏è"
  else if l = "Java" then "‚òï"
  else if l = "C/C++" then "üíª"
  else if l = "Go" then "ü¶¶"
  else if l = "Rust" then "ü¶Ä"
  else if l = "Ruby" then "üíé"
  else if l = "PHP" then "üêò"
  else if l = "Unknown" then "‚ùì"
  else "‚ùì"

/-- The local `framework` variable of `_advanced_template`:
`f" | {framework}" if framework and framework != language else ""`. -/
def advFrameworkSuffix (pi : ProjectInfo) : String :=
  if pyOptTruthy pi.framework && !(pyOptStr pi.framework == pi.language) then
    " | " ++ pyOptStr pi.framework
  else ""

/-- The local `badges` variable of `_advanced_template`. -/
def advBadges (pi : ProjectInfo) : String :=
  "\n![License](https://img.shields.io/badge/license-MIT-green.svg)\n![Language](https://img.shields.io/badge/language-" ++
    String.replace pi.language " " "%20" ++ "-blue.svg)\n"

/-- The local `tech_stack` variable of `_advanced_template`. -/
def advTechStack (pi : ProjectInfo) : String :=
  let base := lang_icon pi.language ++ " " ++ pi.language ++ advFrameworkSuffix pi
  if pi.dependencies.isEmpty then base
  else base ++ " | " ++ String.intercalate ", " (pi.dependencies.take 5)

/-- `READMEGenerator._advanced_template` -/
def advanced_template (pi : ProjectInfo) : String :=
  "# " ++ pi.name ++ "\n\n" ++ advBadges pi ++ "\n\n" ++ pi.description ++
    "\n\n## üöÄ Table of Contents\n- [Features](#features)\n- [Getting Started](#getting-started)\n- [Installation](#installation)\n- [Usage](#usage)\n- [Configuration](#configuration)\n- [Tech Stack](#tech-stack)\n- [Screenshots](#screenshots)\n- [API Reference](#api-reference)\n- [Contributing](#contributing)\n- [Contact](#contact)\n- [License](#license)\n\n## ‚ú® Features\n- **Modern " ++
    pi.language ++ "**: Built with the latest " ++ pi.language ++ " features\n" ++
    (if pyOptTruthy pi.framework then
      "- **" ++ pyOptStr pi.framework ++ " Integration**: Leverages " ++
        pyOptStr pi.framework ++ " for enhanced functionality"
    else "") ++
    "\n- **Comprehensive Testing**: " ++
    (if pi.has_tests then "Includes unit and integration tests" else "Test coverage planned") ++
    "\n- **Documentation**: " ++
    (if pi.has_docs then "Complete documentation included" else "Documentation in development") ++
    "\n\n## üèÅ Getting Started\n\nFollow these steps to get your development environment set up:\n\n1. **Clone the repository**\n   ```bash\n   git clone <repository-url>\n   cd " ++
    pi.name ++
    "\n   ```\n2. **Install dependencies**\n   ```bash\n   " ++
    get_install_command pi ++
    "\n   ```\n3. **Run the application**\n   ```bash\n   " ++
    get_run_command pi ++
    "\n   ```\n\n## ‚öôÔ∏è Installation\n\n### Requirements\n- " ++
    lang_icon pi.language ++ " " ++ pi.language ++ " 3.8+" ++
    (if pyOptTruthy pi.framework then " | " ++ pyOptStr pi.framework else "") ++
    "\n\n### Quick Start\n```bash\n# Clone the repository\ngit clone <repository-url>\ncd " ++
    pi.name ++ "\n\n# Install dependencies\n" ++ get_install_command pi ++
    "\n\n# Run the application\n" ++ get_run_command pi ++
    "\n```\n\n## üõ†Ô∏è Usage\n\n### Basic Usage\n```bash\n" ++
    get_basic_usage pi ++
    "\n```\n\n### Advanced Configuration\n" ++
    get_configuration_section pi ++
    "\n\n## üß∞ Tech Stack\n- " ++
    advTechStack pi ++
    "\n\n## üì∏ Screenshots\nAdd screenshots here:\n```\n![Screenshot 1](link-to-screenshot-1)\n![Screenshot 2](link-to-screenshot-2)\n```\n\n## üìö API Reference\n" ++
    get_api_reference ++
    "\n\n## ü§ù Contributing\nWe welcome contributions! Please see our [Contributing Guide](CONTRIBUTING.md) for details.\n\n### Development Setup\n```bash\n# Clone the repository\ngit clone <repository-url>\ncd " ++
    pi.name ++ "\n\n# Install development dependencies\n" ++
    get_dev_install_command pi ++ "\n\n# Run tests\n" ++ get_test_command pi ++
    "\n```\n\n## üì¨ Contact\nFor questions, suggestions, or support, please open an issue or contact the maintainers.\n\n## üìù License\nThis project is licensed under the MIT License - see the [LICENSE](LICENSE) file for details.\n"

/-- `READMEGenerator._generate_template_readme` -/
def generate_template_readme (pi : ProjectInfo) (readme_type : String) : String :=
  if readme_type = "simple" then simple_template pi
  else if readme_type = "installation" then installation_template pi
  else advanced_template pi

/-! ## Provider-backed generation (`READMEGenerator.generate_readme`)

Each network interaction is passed in as an explicit outcome value:
`Except Unit α` is `.error ()` when the Python call raised (caught by the
surrounding `try`/`except`) and `.ok` with the observed data otherwise.
The provider functions below mirror the branch structure of
`_generate_openai_readme`, `_generate_anthropic_readme`,
`_generate_google_readme`, `_generate_huggingface_readme` and
`_generate_ollama_readme` exactly: every failing branch returns
`_generate_template_readme(project_info, readme_type)`. -/

/-- The JSON body of a Hugging Face 200 response, as consumed by the code:
a list (first element's `generated_text` entry, defaulted to `''`), a dict
(its `generated_text` entry, defaulted to `''`), or anything else (whose
`str()` rendering is returned). `reprStr` carries the `str(result)` text
used when the list is empty or the value has another shape. -/
inductive HFBody : Type where
  | jlist : List (Option String) → String → HFBody
  | jdict : Option String → HFBody
  | jother : String → HFBody

/-- The `if isinstance(result, list) ... elif isinstance(result, dict) ...
else str(result)` extraction of a Hugging Face 200 response. -/
def hfExtract : HFBody → String
  | .jlist (e :: _) _ => e.getD ""
  | .jlist [] reprStr => reprStr
  | .jdict e => e.getD ""
  | .jother reprStr => reprStr

/-- `READMEGenerator._generate_openai_readme`: `preflight` is the
`models.list()` outcome (the listed model ids), `call` the
`chat.completions.create` outcome (the returned message content). -/
def generate_openai_readme (pi : ProjectInfo) (readme_type : String)
    (preflight : Except Unit (List String)) (call : Except Unit String) : String :=
  match preflight with
  | .error _ => generate_template_readme pi readme_type
  | .ok model_names =>
    if !(model_names.contains "gpt-3.5-turbo") then
      generate_template_readme pi readme_type
    else
      match call with
      | .error _ => generate_template_readme pi readme_type
      | .ok content => content

/-- `READMEGenerator._generate_anthropic_readme`: same shape as the
OpenAI path with model id `claude-3-haiku-20240307`. -/
def generate_anthropic_readme (pi : ProjectInfo) (readme_type : String)
    (preflight : Except Unit (List String)) (call : Except Unit String) : String :=
  match preflight with
  | .error _ => generate_template_readme pi readme_type
  | .ok model_names =>
    if !(model_names.contains "claude-3-haiku-20240307") then
      generate_template_readme pi readme_type
    else
      match call with
      | .error _ => generate_template_readme pi readme_type
      | .ok content => content

/-- `READMEGenerator._generate_google_readme`: same shape with model name
`models/gemini-pro`; `call` is the `generate_content(...).text` outcome. -/
def generate_google_readme (pi : ProjectInfo) (readme_type : String)
    (preflight : Except Unit (List String)) (call : Except Unit String) : String :=
  match preflight with
  | .error _ => generate_template_readme pi readme_type
  | .ok model_names =>
    if !(model_names.contains "models/gemini-pro") then
      generate_template_readme pi readme_type
    else
      match call with
      | .error _ => generate_template_readme pi readme_type
      | .ok text => text

/-- `READMEGenerator._generate_huggingface_readme`: `check` is the
pre-flight GET outcome (its status code), `post` the POST outcome: status
code paired with the `response.json()` outcome (`.error ()` when the body
fails to parse, which the outer `except` turns into the template). -/
def generate_huggingface_readme (pi : ProjectInfo) (readme_type : String)
    (check : Except Unit Nat)
    (post : Except Unit (Nat × Except Unit HFBody)) : String :=
  match check with
  | .error _ => generate_template_readme pi readme_type
  | .ok check_status =>
    if check_status ≠ 200 then generate_template_readme pi readme_type
    else
      match post with
      | .error _ => generate_template_readme pi readme_type
      | .ok (status, body) =>
        if status = 200 then
          match body with
          | .error _ => generate_template_readme pi readme_type
          | .ok result => hfExtract result
        else generate_template_readme pi readme_type

/-- `READMEGenerator._generate_ollama_readme`: `tags` is the
`GET /api/tags` outcome (status code and, when it parses, the available
model names); `post` the `POST /api/generate` outcome (status code and
the parsed `response` field, defaulted to `''`). -/
def generate_ollama_readme (pi : ProjectInfo) (readme_type : String)
    (tags : Except Unit (Nat × Except Unit (List String)))
    (post : Except Unit (Nat × Except Unit (Option String))) : String :=
  match tags with
  | .error _ => generate_template_readme pi readme_type
  | .ok (tags_status, parsed) =>
    if tags_status ≠ 200 then generate_template_readme pi readme_type
    else
      match parsed with
      | .error _ => generate_template_readme pi readme_type
      | .ok model_names =>
        if !(model_names.contains "codellama:7b-instruct") then
          generate_template_readme pi readme_type
        else
          match post with
          | .error _ => generate_template_readme pi readme_type
          | .ok (status, body) =>
            if status = 200 then
              match body with
              | .error _ => generate_template_readme pi readme_type
              | .ok response => response.getD ""
            else generate_template_readme pi readme_type

/-- The provider state of a `READMEGenerator` instance together with the
observed outcomes of the network interactions its generation path would
perform.  `noProvider` covers every configuration in which the selected
provider's client attribute is `None`, for which `generate_readme` goes
straight to the template. -/
inductive ProviderConfig : Type where
  | openaiCfg : Except Unit (List String) → Except Unit String → ProviderConfig
  | anthropicCfg : Except Unit (List String) → Except Unit String → ProviderConfig
  | googleCfg : Except Unit (List String) → Except Unit String → ProviderConfig
  | huggingfaceCfg : Except Unit Nat → Except Unit (Nat × Except Unit HFBody) → ProviderConfig
  | ollamaCfg : Except Unit (Nat × Except Unit (List String)) →
      Except Unit (Nat × Except Unit (Option String)) → ProviderConfig
  | noProvider : ProviderConfig

/-- `READMEGenerator.generate_readme`: the provider dispatch chain. -/
def generate_readme (cfg : ProviderConfig) (pi : ProjectInfo)
    (readme_type : String) : String :=
  match cfg with
  | .openaiCfg preflight call => generate_openai_readme pi readme_type preflight call
  | .anthropicCfg preflight call => generate_anthropic_readme pi readme_type preflight call
  | .googleCfg preflight call => generate_google_readme pi readme_type preflight call
  | .huggingfaceCfg check post => generate_huggingface_readme pi readme_type check post
  | .ollamaCfg tags post => generate_ollama_readme pi readme_type tags post
  | .noProvider => generate_template_readme pi readme_type

/-- A provider step failed: the disjunction, per provider, of every
failure the source catches — pre-flight exception, missing model,
non-200 status, body-parse failure, or a raising generation call.
`noProvider` is not a failure (no provider is configured there). -/
def providerFailed : ProviderConfig → Prop
  | .openaiCfg preflight call =>
    preflight = .error () ∨
      (∃ ms, preflight = .ok ms ∧ ms.contains "gpt-3.5-turbo" = false) ∨
      call = .error ()
  | .anthropicCfg preflight call =>
    preflight = .error () ∨
      (∃ ms, preflight = .ok ms ∧ ms.contains "claude-3-haiku-20240307" = false) ∨
      call = .error ()
  | .googleCfg preflight call =>
    preflight = .error () ∨
      (∃ ms, preflight = .ok ms ∧ ms.contains "models/gemini-pro" = false) ∨
      call = .error ()
  | .huggingfaceCfg check post =>
    check = .error () ∨ (∃ s, check = .ok s ∧ s ≠ 200) ∨
      post = .error () ∨ (∃ s b, post = .ok (s, b) ∧ s ≠ 200) ∨
      post = .ok (200, .error ())
  | .ollamaCfg tags post =>
    tags = .error () ∨ (∃ s p, tags = .ok (s, p) ∧ s ≠ 200) ∨
      (∃ s, tags = .ok (s, .error ())) ∨
      (∃ s ms, tags = .ok (s, .ok ms) ∧ ms.contains "codellama:7b-instruct" = false) ∨
      post = .error () ∨ (∃ s b, post = .ok (s, b) ∧ s ≠ 200) ∨
      post = .ok (200, .error ())
  | .noProvider => False

/-- A text-generation provider is configured. -/
def providerConfigured : ProviderConfig → Prop
  | .noProvider => False
  | _ => True

/-- `sub` occurs contiguously inside `s`. -/
def hasSub (s sub : String) : Prop :=
  sub.data <:+: s.data

/-- The literal sentence claimed to appear in every template document. -/
def mitSentence : String := "This project is licensed under the MIT License"

/-! ## Theorems -/

theorem listContainsSub_infix_iff (hay needle : List Char) :
    listContainsSub hay needle = true ↔ needle <:+: hay := by
  induction hay with
  | nil =>
    simp [listContainsSub, List.isPrefixOf_iff_prefix]
  | cons a t ih =>
    rw [listContainsSub]
    simp [ List.isPrefixOf_iff_prefix, ih, List.infix_cons_iff]

theorem strContains_infix_iff (hay needle : String) :
    strContains hay needle = true ↔ needle.data <:+: hay.data :=
  listContainsSub_infix_iff hay.data needle.data

theorem textchar_iff (b : Nat) : textchar b = true ↔ allowedByte b := by
  simp [textchar, allowedByte]
  tauto

theorem string_data_append (a b : String) : (a ++ b).data = a.data ++ b.data := by
  cases a
  cases b
  rfl

theorem hasSub_append_right (a b sub : String) (h : hasSub b sub) :
    hasSub (a ++ b) sub := by
  obtain ⟨s, t, hst⟩ := h
  exact ⟨a.data ++ s, t, by rw [string_data_append, ← hst]; simp⟩

theorem hasSub_append_left (a b sub : String) (h : hasSub a sub) :
    hasSub (a ++ b) sub := by
  obtain ⟨s, t, hst⟩ := h
  exact ⟨s, t ++ b.data, by rw [string_data_append, ← hst]; simp⟩

/-- C2: counterexample.  The claim predicts `'myvenv.py'` is not excluded
(no segment equals an exclusion entry) and that a leaf starting with a dot
such as `'.hidden'` is excluded; `should_exclude` answers the opposite on
both, because it is a bare substring test with no dot-leaf rule. -/
theorem should_exclude_counterexample :
    should_exclude "myvenv.py" = true ∧ should_exclude ".hidden" = false := by
  decide

/-- C2 (amended): `should_exclude path` is true iff one of the six
exclusion strings occurs as a substring anywhere in the path string;
path segments play no role and there is no leaf-starts-with-dot rule. -/
theorem should_exclude_spec (file_path : String) :
    should_exclude file_path = true ↔
      ∃ pattern ∈ EXCLUDE_PATTERNS, pattern.data <:+: file_path.data := by
  simp [should_exclude, List.any_eq_true, strContains_infix_iff]

/-- C3: counterexample.  The claim's allow-set omits bell (0x07) and
backspace (0x08), so it predicts buffers containing them are binary; the
code's allow-set `{7,8,9,10,12,13,27} | range(0x20,0x100) - {0x7f}`
contains both, so they classify as text. -/
theorem is_binary_counterexample :
    is_binary [7] = false ∧ is_binary [8] = false := by
  decide

theorem is_binary_eq_any (content : List Nat) :
    is_binary content = content.any (fun b => !textchar b) := by
  induction content with
  | nil => rfl
  | cons b t ih =>
    by_cases hb : textchar b = true
    · simp [is_binary, translateDelete, List.filter_cons, hb, List.any_cons]
      simpa [is_binary, translateDelete] using ih
    · simp [is_binary, translateDelete, List.filter_cons, hb, List.any_cons]

/-- C3 (amended): `is_binary` is true iff some byte lies outside the
allow-set {bell, backspace, tab, newline, form-feed, carriage-return,
escape} ∪ [0x20, 0xFF] \ {0x7F} — i.e. the claim's set extended with
bell and backspace; in particular all-printable-ASCII buffers are
non-binary and any buffer containing 0x00 is binary. -/
theorem is_binary_spec (content : List Nat) :
    (is_binary content = true ↔ ∃ b ∈ content, ¬ allowedByte b) ∧
    ((∀ b ∈ content, 0x20 ≤ b ∧ b ≤ 0x7e) → is_binary content = false) ∧
    (0 ∈ content → is_binary content = true) := by
  have hmain : is_binary content = true ↔ ∃ b ∈ content, ¬ allowedByte b := by
    rw [is_binary_eq_any]
    simp [List.any_eq_true, ← textchar_iff, Bool.not_eq_true]
  refine ⟨hmain, ?_, ?_⟩
  · intro hall
    have hno : ¬ ∃ b ∈ content, ¬ allowedByte b := by
      rintro ⟨b, hb, hnb⟩
      obtain ⟨h1, h2⟩ := hall b hb
      exact hnb (Or.inr (Or.inr (Or.inr (Or.inr (Or.inr (Or.inr (Or.inr ⟨h1, by omega, by omega⟩)))))))
    cases hbin : is_binary content
    · rfl
    · exact absurd (hmain.mp hbin) hno
  · intro h0
    exact hmain.mpr ⟨0, h0, by simp [allowedByte]⟩

/-- C3 witness: concrete instances of the amended theorem's conditional
parts — a buffer containing 0x00 is binary, a printable-ASCII buffer is
not. -/
theorem is_binary_spec_witness :
    ((0 ∈ ([0, 65] : List Nat)) ∧ is_binary [0, 65] = true) ∧
      is_binary [72, 105] = false :=
  ⟨⟨by decide, (is_binary_spec [0, 65]).2.2 (by decide)⟩,
    (is_binary_spec [72, 105]).2.1 (by decide)⟩

/-- C4: counterexample.  On a root that does not exist (`none`) or is not
a directory (`some .file`), `os.walk` yields no triples (its default
`onerror=None` swallows the `OSError`), so `_get_project_files` returns
the empty list as a normal value — it raises no `IOError`. -/
theorem get_project_files_counterexample :
    get_project_files none = [] ∧ get_project_files (some FSTree.file) = [] :=
  ⟨rfl, rfl⟩

/-- C4 (amended): for every root that does not exist or is not a
directory, the project scan completes normally and returns the empty file
list (no `IOError` is raised; the CLI layer separately refuses
non-existent paths with an existence check before ever calling the
scan). -/
theorem get_project_files_missing_root (root : Option FSTree)
    (h : root = none ∨ root = some FSTree.file) :
    get_project_files root = [] := by
  rcases h with h | h <;> subst h <;> rfl

/-- C4 witness: the amended theorem applied to the missing root. -/
theorem get_project_files_missing_root_witness :
    ((none : Option FSTree) = none ∨ (none : Option FSTree) = some FSTree.file) ∧
      get_project_files none = [] :=
  ⟨Or.inl rfl, get_project_files_missing_root none (Or.inl rfl)⟩

theorem hasKey_bump_iff (m : List (String × Nat)) (k e : String) :
    hasKey (bump m k) e = true ↔ hasKey m e = true ∨ e = k := by
  induction m with
  | nil => simp [bump, hasKey, @eq_comm String e k]
  | cons p rest ih =>
    obtain ⟨k', v⟩ := p
    by_cases hk : k' = k
    · subst hk
      simp [bump, hasKey, List.any_cons, @eq_comm String e k']
      tauto
    · simp [bump, hasKey, List.any_cons, hk] at ih ⊢
      rw [ih]
      tauto

theorem hasKey_countExts (files : List String) (e : String) :
    hasKey (countExts files) e = true ↔ e ≠ "" ∧ ∃ f ∈ files, extLower f = e := by
  suffices h : ∀ m : List (String × Nat),
      hasKey (List.foldl countStep m files) e = true ↔
      hasKey m e = true ∨ (e ≠ "" ∧ ∃ f ∈ files, extLower f = e) by
    simpa [countExts, hasKey] using h []
  intro m
  induction files generalizing m with
  | nil => simp
  | cons f t ih =>
    simp only [List.foldl_cons]
    rw [ih]
    unfold countStep
    by_cases hf : extLower f = ""
    · rw [if_neg (fun hc => hc hf)]
      simp only [List.exists_mem_cons_iff, hf]
      constructor
      · rintro (h | ⟨he, hex⟩)
        · exact Or.inl h
        · exact Or.inr ⟨he, Or.inr hex⟩
      · rintro (h | ⟨he, he' | hex⟩)
        · exact Or.inl h
        · exact absurd he'.symm he
        · exact Or.inr ⟨he, hex⟩
    · rw [if_pos hf, hasKey_bump_iff]
      simp only [List.exists_mem_cons_iff]
      constructor
      · rintro ((h | rfl) | ⟨he, hex⟩)
        · exact Or.inl h
        · exact Or.inr ⟨hf, Or.inl rfl⟩
        · exact Or.inr ⟨he, Or.inr hex⟩
      · rintro (h | ⟨he, he' | hex⟩)
        · exact Or.inl (Or.inl h)
        · exact Or.inl (Or.inr he'.symm)
        · exact Or.inr ⟨he, hex⟩

/-- C1: language detection follows the fixed priority order
Python < JS/TS < Java < C/C++ < Go < Rust < Ruby < PHP — the first
category with at least one matching lower-cased extension wins, no matter
how many files carry each extension — and returns `Unknown` exactly when
no recognized extension appears. -/
theorem detect_language_priority (files : List String) :
    (detect_language files = "Unknown" ↔ ∀ f ∈ files, extLower f ∉ recognizedExts) ∧
    ((∃ f ∈ files, extLower f = ".py") → detect_language files = "Python") ∧
    ((∀ f ∈ files, extLower f ≠ ".py") →
      (∃ f ∈ files, extLower f = ".js" ∨ extLower f = ".ts") →
      detect_language files = "JavaScript/TypeScript") ∧
    ((∀ f ∈ files, extLower f ≠ ".py" ∧ extLower f ≠ ".js" ∧ extLower f ≠ ".ts") →
      (∃ f ∈ files, extLower f = ".java") →
      detect_language files = "Java") ∧
    ((∀ f ∈ files, extLower f ≠ ".py" ∧ extLower f ≠ ".js" ∧ extLower f ≠ ".ts" ∧
        extLower f ≠ ".java") →
      (∃ f ∈ files, extLower f = ".cpp" ∨ extLower f = ".c") →
      detect_language files = "C/C++") ∧
    ((∀ f ∈ files, extLower f ≠ ".py" ∧ extLower f ≠ ".js" ∧ extLower f ≠ ".ts" ∧
        extLower f ≠ ".java" ∧ extLower f ≠ ".cpp" ∧ extLower f ≠ ".c") →
      (∃ f ∈ files, extLower f = ".go") →
      detect_language files = "Go") ∧
    ((∀ f ∈ files, extLower f ≠ ".py" ∧ extLower f ≠ ".js" ∧ extLower f ≠ ".ts" ∧
        extLower f ≠ ".java" ∧ extLower f ≠ ".cpp" ∧ extLower f ≠ ".c" ∧
        extLower f ≠ ".go") →
      (∃ f ∈ files, extLower f = ".rs") →
      detect_language files = "Rust") ∧
    ((∀ f ∈ files, extLower f ≠ ".py" ∧ extLower f ≠ ".js" ∧ extLower f ≠ ".ts" ∧
        extLower f ≠ ".java" ∧ extLower f ≠ ".cpp" ∧ extLower f ≠ ".c" ∧
        extLower f ≠ ".go" ∧ extLower f ≠ ".rs") →
      (∃ f ∈ files, extLower f = ".rb") →
      detect_language files = "Ruby") ∧
    ((∀ f ∈ files, extLower f ≠ ".py" ∧ extLower f ≠ ".js" ∧ extLower f ≠ ".ts" ∧
        extLower f ≠ ".java" ∧ extLower f ≠ ".cpp" ∧ extLower f ≠ ".c" ∧
        extLower f ≠ ".go" ∧ extLower f ≠ ".rs" ∧ extLower f ≠ ".rb") →
      (∃ f ∈ files, extLower f = ".php") →
      detect_language files = "PHP") := by
  have key : ∀ e : String, e ≠ "" →
      (hasKey (countExts files) e = true ↔ ∃ f ∈ files, extLower f = e) := by
    intro e he
    rw [hasKey_countExts]
    exact and_iff_right he
  have nkey : ∀ e : String, e ≠ "" → (∀ f ∈ files, extLower f ≠ e) →
      ¬(hasKey (countExts files) e = true) := by
    intro e he hall hb
    obtain ⟨f, hf, hee⟩ := (key e he).mp hb
    exact hall f hf hee
  have norKey : ∀ e1 e2 : String, e1 ≠ "" → e2 ≠ "" →
      (∀ f ∈ files, extLower f ≠ e1) → (∀ f ∈ files, extLower f ≠ e2) →
      ¬((hasKey (countExts files) e1 || hasKey (countExts files) e2) = true) := by
    intro e1 e2 h1 h2 ha1 ha2 hb
    rcases Bool.or_eq_true_iff.mp hb with h | h
    · exact nkey e1 h1 ha1 h
    · exact nkey e2 h2 ha2 h
  refine ⟨?_, ?_, ?_, ?_, ?_, ?_, ?_, ?_, ?_⟩
  · unfold detect_language
    split_ifs with h1 h2 h3 h4 h5 h6 h7 h8
    · refine iff_of_false (by decide) ?_
      obtain ⟨f, hf, he⟩ := (key ".py" (by decide)).mp h1
      exact fun hall => hall f hf (by rw [he]; decide)
    · refine iff_of_false (by decide) ?_
      rcases Bool.or_eq_true_iff.mp h2 with h | h
      · obtain ⟨f, hf, he⟩ := (key ".js" (by decide)).mp h
        exact fun hall => hall f hf (by rw [he]; decide)
      · obtain ⟨f, hf, he⟩ := (key ".ts" (by decide)).mp h
        exact fun hall => hall f hf (by rw [he]; decide)
    · refine iff_of_false (by decide) ?_
      obtain ⟨f, hf, he⟩ := (key ".java" (by decide)).mp h3
      exact fun hall => hall f hf (by rw [he]; decide)
    · refine iff_of_false (by decide) ?_
      rcases Bool.or_eq_true_iff.mp h4 with h | h
      · obtain ⟨f, hf, he⟩ := (key ".cpp" (by decide)).mp h
        exact fun hall => hall f hf (by rw [he]; decide)
      · obtain ⟨f, hf, he⟩ := (key ".c" (by decide)).mp h
        exact fun hall => hall f hf (by rw [he]; decide)
    · refine iff_of_false (by decide) ?_
      obtain ⟨f, hf, he⟩ := (key ".go" (by decide)).mp h5
      exact fun hall => hall f hf (by rw [he]; decide)
    · refine iff_of_false (by decide) ?_
      obtain ⟨f, hf, he⟩ := (key ".rs" (by decide)).mp h6
      exact fun hall => hall f hf (by rw [he]; decide)
    · refine iff_of_false (by decide) ?_
      obtain ⟨f, hf, he⟩ := (key ".rb" (by decide)).mp h7
      exact fun hall => hall f hf (by rw [he]; decide)
    · refine iff_of_false (by decide) ?_
      obtain ⟨f, hf, he⟩ := (key ".php" (by decide)).mp h8
      exact fun hall => hall f hf (by rw [he]; decide)
    · refine iff_of_true rfl ?_
      intro f hf hmem
      simp only [recognizedExts, List.mem_cons, List.not_mem_nil, or_false] at hmem
      rcases hmem with he | he | he | he | he | he | he | he | he | he
      · exact h1 ((key ".py" (by decide)).mpr ⟨f, hf, he⟩)
      · exact h2 (Bool.or_eq_true_iff.mpr (Or.inl ((key ".js" (by decide)).mpr ⟨f, hf, he⟩)))
      · exact h2 (Bool.or_eq_true_iff.mpr (Or.inr ((key ".ts" (by decide)).mpr ⟨f, hf, he⟩)))
      · exact h3 ((key ".java" (by decide)).mpr ⟨f, hf, he⟩)
      · exact h4 (Bool.or_eq_true_iff.mpr (Or.inl ((key ".cpp" (by decide)).mpr ⟨f, hf, he⟩)))
      · exact h4 (Bool.or_eq_true_iff.mpr (Or.inr ((key ".c" (by decide)).mpr ⟨f, hf, he⟩)))
      · exact h5 ((key ".go" (by decide)).mpr ⟨f, hf, he⟩)
      · exact h6 ((key ".rs" (by decide)).mpr ⟨f, hf, he⟩)
      · exact h7 ((key ".rb" (by decide)).mpr ⟨f, hf, he⟩)
      · exact h8 ((key ".php" (by decide)).mpr ⟨f, hf, he⟩)
  · intro hex
    unfold detect_language
    rw [if_pos ((key ".py" (by decide)).mpr hex)]
  · intro hall hex
    have hpy := nkey ".py" (by decide) hall
    unfold detect_language
    rw [if_neg hpy]
    obtain ⟨f, hf, he | he⟩ := hex
    · rw [if_pos (Bool.or_eq_true_iff.mpr (Or.inl ((key ".js" (by decide)).mpr ⟨f, hf, he⟩)))]
    · rw [if_pos (Bool.or_eq_true_iff.mpr (Or.inr ((key ".ts" (by decide)).mpr ⟨f, hf, he⟩)))]
  · intro hall hex
    have hpy := nkey ".py" (by decide) (fun f hf => (hall f hf).1)
    have hjsts := norKey ".js" ".ts" (by decide) (by decide)
      (fun f hf => (hall f hf).2.1) (fun f hf => (hall f hf).2.2)
    unfold detect_language
    rw [if_neg hpy, if_neg hjsts, if_pos ((key ".java" (by decide)).mpr hex)]
  · intro hall hex
    have hpy := nkey ".py" (by decide) (fun f hf => (hall f hf).1)
    have hjsts := norKey ".js" ".ts" (by decide) (by decide)
      (fun f hf => (hall f hf).2.1) (fun f hf => (hall f hf).2.2.1)
    have hjava := nkey ".java" (by decide) (fun f hf => (hall f hf).2.2.2)
    unfold detect_language
    rw [if_neg hpy, if_neg hjsts, if_neg hjava]
    obtain ⟨f, hf, he | he⟩ := hex
    · rw [if_pos (Bool.or_eq_true_iff.mpr (Or.inl ((key ".cpp" (by decide)).mpr ⟨f, hf, he⟩)))]
    · rw [if_pos (Bool.or_eq_true_iff.mpr (Or.inr ((key ".c" (by decide)).mpr ⟨f, hf, he⟩)))]
  · intro hall hex
    have hpy := nkey ".py" (by decide) (fun f hf => (hall f hf).1)
    have hjsts := norKey ".js" ".ts" (by decide) (by decide)
      (fun f hf => (hall f hf).2.1) (fun f hf => (hall f hf).2.2.1)
    have hjava := nkey ".java" (by decide) (fun f hf => (hall f hf).2.2.2.1)
    have hcppc := norKey ".cpp" ".c" (by decide) (by decide)
      (fun f hf => (hall f hf).2.2.2.2.1) (fun f hf => (hall f hf).2.2.2.2.2)
    unfold detect_language
    rw [if_neg hpy, if_neg hjsts, if_neg hjava, if_neg hcppc,
      if_pos ((key ".go" (by decide)).mpr hex)]
  · intro hall hex
    have hpy := nkey ".py" (by decide) (fun f hf => (hall f hf).1)
    have hjsts := norKey ".js" ".ts" (by decide) (by decide)
      (fun f hf => (hall f hf).2.1) (fun f hf => (hall f hf).2.2.1)
    have hjava := nkey ".java" (by decide) (fun f hf => (hall f hf).2.2.2.1)
    have hcppc := norKey ".cpp" ".c" (by decide) (by decide)
      (fun f hf => (hall f hf).2.2.2.2.1) (fun f hf => (hall f hf).2.2.2.2.2.1)
    have hgo := nkey ".go" (by decide) (fun f hf => (hall f hf).2.2.2.2.2.2)
    unfold detect_language
    rw [if_neg hpy, if_neg hjsts, if_neg hjava, if_neg hcppc, if_neg hgo,
      if_pos ((key ".rs" (by decide)).mpr hex)]
  · intro hall hex
    have hpy := nkey ".py" (by decide) (fun f hf => (hall f hf).1)
    have hjsts := norKey ".js" ".ts" (by decide) (by decide)
      (fun f hf => (hall f hf).2.1) (fun f hf => (hall f hf).2.2.1)
    have hjava := nkey ".java" (by decide) (fun f hf => (hall f hf).2.2.2.1)
    have hcppc := norKey ".cpp" ".c" (by decide) (by decide)
      (fun f hf => (hall f hf).2.2.2.2.1) (fun f hf => (hall f hf).2.2.2.2.2.1)
    have hgo := nkey ".go" (by decide) (fun f hf => (hall f hf).2.2.2.2.2.2.1)
    have hrs := nkey ".rs" (by decide) (fun f hf => (hall f hf).2.2.2.2.2.2.2)
    unfold detect_language
    rw [if_neg hpy, if_neg hjsts, if_neg hjava, if_neg hcppc, if_neg hgo, if_neg hrs,
      if_pos ((key ".rb" (by decide)).mpr hex)]
  · intro hall hex
    have hpy := nkey ".py" (by decide) (fun f hf => (hall f hf).1)
    have hjsts := norKey ".js" ".ts" (by decide) (by decide)
      (fun f hf => (hall f hf).2.1) (fun f hf => (hall f hf).2.2.1)
    have hjava := nkey ".java" (by decide) (fun f hf => (hall f hf).2.2.2.1)
    have hcppc := norKey ".cpp" ".c" (by decide) (by decide)
      (fun f hf => (hall f hf).2.2.2.2.1) (fun f hf => (hall f hf).2.2.2.2.2.1)
    have hgo := nkey ".go" (by decide) (fun f hf => (hall f hf).2.2.2.2.2.2.1)
    have hrs := nkey ".rs" (by decide) (fun f hf => (hall f hf).2.2.2.2.2.2.2.1)
    have hrb := nkey ".rb" (by decide) (fun f hf => (hall f hf).2.2.2.2.2.2.2.2)
    unfold detect_language
    rw [if_neg hpy, if_neg hjsts, if_neg hjava, if_neg hcppc, if_neg hgo, if_neg hrs,
      if_neg hrb, if_pos ((key ".php" (by decide)).mpr hex)]

/-- C1 witness: a list with 50 `.js` files and one `.py` file detects as
Python. -/
theorem detect_language_priority_witness :
    detect_language (List.replicate 50 "a.js" ++ ["b.py"]) = "Python" :=
  (detect_language_priority (List.replicate 50 "a.js" ++ ["b.py"])).2.1
    ⟨"b.py", by simp, by decide⟩

theorem structStep_foldl (children : List Child) :
    ∀ s : StructInfo, children.foldl structStep s =
      ⟨s.src_dirs ++ children.filterMap (fun c =>
          match c with
          | Child.dir name =>
            if name ∈ (["src", "app", "lib", "source"] : List String) then some name else none
          | _ => none),
        s.config_files ++ children.filterMap (fun c =>
          match c with
          | Child.file name =>
            if ([".json", ".yaml", ".yml", ".toml", ".ini"] : List String).any
                (fun ext => strContains (strLower name) ext) then some name else none
          | _ => none),
        s.build_files ++ children.filterMap (fun c =>
          match c with
          | Child.file name =>
            if ([".json", ".yaml", ".yml", ".toml", ".ini"] : List String).any
                (fun ext => strContains (strLower name) ext) then none
            else if ([".lock", ".spec", "build"] : List String).any
                (fun ext => strContains (strLower name) ext) then some name else none
          | _ => none),
        s.test_dirs ++ children.filterMap (fun c =>
          match c with
          | Child.dir name =>
            if name ∈ (["src", "app", "lib", "source"] : List String) then none
            else if strContains (strLower name) "test" then some name else none
          | _ => none)⟩ := by
  induction children with
  | nil =>
    intro s
    cases s
    simp
  | cons c t ih =>
    intro s
    simp only [List.foldl_cons, List.filterMap_cons]
    rw [ih (structStep s c)]
    cases c with
    | dir name =>
      by_cases h1 : name ∈ (["src", "app", "lib", "source"] : List String)
      · simp [structStep, h1, StructInfo.mk.injEq, List.append_assoc]
      · by_cases h2 : strContains (strLower name) "test" = true
        · simp [structStep, h1, h2, StructInfo.mk.injEq, List.append_assoc]
        · simp [structStep, h1, h2, StructInfo.mk.injEq]
    | file name =>
      by_cases h1 : ([".json", ".yaml", ".yml", ".toml", ".ini"] : List String).any
          (fun ext => strContains (strLower name) ext) = true
      · simp [structStep, h1, StructInfo.mk.injEq, List.append_assoc]
      · by_cases h2 : ([".lock", ".spec", "build"] : List String).any
            (fun ext => strContains (strLower name) ext) = true
        · simp [structStep, h1, h2, StructInfo.mk.injEq, List.append_assoc]
        · simp [structStep, h1, h2, StructInfo.mk.injEq]
    | other name =>
      simp [structStep, StructInfo.mk.injEq]

/-- C6: counterexample.  `'package.lock.json'` matches the config rule
(contains `.json`) and the build rule (contains `.lock`), yet the `elif`
chain of `_analyze_structure` places it only in `config_files` —
membership is not independent. -/
theorem analyze_structure_counterexample :
    strContains (strLower "package.lock.json") ".json" = true ∧
    strContains (strLower "package.lock.json") ".lock" = true ∧
    (analyze_structure [Child.file "package.lock.json"]).config_files =
      ["package.lock.json"] ∧
    (analyze_structure [Child.file "package.lock.json"]).build_files = [] := by
  decide

/-- C6 (amended): for each item the categories are checked in a fixed
order with `elif` — directories: `src_dirs` (exact name) before
`test_dirs` (name contains `test`); files: `config_files` before
`build_files` — and the item lands only in the first category whose rule
it matches, never in two. -/
theorem analyze_structure_first_match (children : List Child) :
    (analyze_structure children).src_dirs = children.filterMap (fun c =>
        match c with
        | Child.dir name =>
          if name ∈ (["src", "app", "lib", "source"] : List String) then some name else none
        | _ => none) ∧
    (analyze_structure children).test_dirs = children.filterMap (fun c =>
        match c with
        | Child.dir name =>
          if name ∈ (["src", "app", "lib", "source"] : List String) then none
          else if strContains (strLower name) "test" then some name else none
        | _ => none) ∧
    (analyze_structure children).config_files = children.filterMap (fun c =>
        match c with
        | Child.file name =>
          if ([".json", ".yaml", ".yml", ".toml", ".ini"] : List String).any
              (fun ext => strContains (strLower name) ext) then some name else none
        | _ => none) ∧
    (analyze_structure children).build_files = children.filterMap (fun c =>
        match c with
        | Child.file name =>
          if ([".json", ".yaml", ".yml", ".toml", ".ini"] : List String).any
              (fun ext => strContains (strLower name) ext) then none
          else if ([".lock", ".spec", "build"] : List String).any
              (fun ext => strContains (strLower name) ext) then some name else none
        | _ => none) := by
  unfold analyze_structure
  rw [structStep_foldl children ⟨[], [], [], []⟩]
  exact ⟨rfl, rfl, rfl, rfl⟩

/-- C7: counterexample.  The claim says the `requirements.txt` and
`package.json` scans are case-insensitive (`'REQUIREMENTS.TXT'` or
`'Package.JSON'` still match); in the source those two tests run on the
raw path (`'requirements.txt' in f`, `'package.json' in f`) without
lower-casing, so neither matches and no framework is detected. -/
theorem detect_framework_counterexample :
    detect_framework ["REQUIREMENTS.TXT"] "Python" = none ∧
    detect_framework ["Package.JSON"] "JavaScript/TypeScript" = none := by
  decide

/-- C7 (amended): framework detection runs only for Python and
JavaScript/TypeScript, scans the path strings themselves in the literal
order django, flask, fastapi, requirements.txt (Python) and package.json,
react, vue, angular (JS/TS) with the first match winning, and returns
none otherwise — but the `requirements.txt` and `package.json` substring
tests are case-sensitive on the raw path, while the other six are
case-insensitive. -/
theorem detect_framework_spec (files : List String) (language : String) :
    (language ≠ "Python" → language ≠ "JavaScript/TypeScript" →
      detect_framework files language = none) ∧
    (language = "Python" →
      ((∃ f ∈ files, "django".data <:+: (strLower f).data) →
        detect_framework files language = some "Django") ∧
      ((∀ f ∈ files, ¬ "django".data <:+: (strLower f).data) →
        (∃ f ∈ files, "flask".data <:+: (strLower f).data) →
        detect_framework files language = some "Flask") ∧
      ((∀ f ∈ files, ¬ "django".data <:+: (strLower f).data ∧
          ¬ "flask".data <:+: (strLower f).data) →
        (∃ f ∈ files, "fastapi".data <:+: (strLower f).data) →
        detect_framework files language = some "FastAPI") ∧
      ((∀ f ∈ files, ¬ "django".data <:+: (strLower f).data ∧
          ¬ "flask".data <:+: (strLower f).data ∧
          ¬ "fastapi".data <:+: (strLower f).data) →
        (∃ f ∈ files, "requirements.txt".data <:+: f.data) →
        detect_framework files language = some "Python") ∧
      ((∀ f ∈ files, ¬ "django".data <:+: (strLower f).data ∧
          ¬ "flask".data <:+: (strLower f).data ∧
          ¬ "fastapi".data <:+: (strLower f).data ∧
          ¬ "requirements.txt".data <:+: f.data) →
        detect_framework files language = none)) ∧
    (language = "JavaScript/TypeScript" →
      ((∃ f ∈ files, "package.json".data <:+: f.data) →
        detect_framework files language = some "Node.js") ∧
      ((∀ f ∈ files, ¬ "package.json".data <:+: f.data) →
        (∃ f ∈ files, "react".data <:+: (strLower f).data) →
        detect_framework files language = some "React") ∧
      ((∀ f ∈ files, ¬ "package.json".data <:+: f.data ∧
          ¬ "react".data <:+: (strLower f).data) →
        (∃ f ∈ files, "vue".data <:+: (strLower f).data) →
        detect_framework files language = some "Vue.js") ∧
      ((∀ f ∈ files, ¬ "package.json".data <:+: f.data ∧
          ¬ "react".data <:+: (strLower f).data ∧
          ¬ "vue".data <:+: (strLower f).data) →
        (∃ f ∈ files, "angular".data <:+: (strLower f).data) →
        detect_framework files language = some "Angular") ∧
      ((∀ f ∈ files, ¬ "package.json".data <:+: f.data ∧
          ¬ "react".data <:+: (strLower f).data ∧
          ¬ "vue".data <:+: (strLower f).data ∧
          ¬ "angular".data <:+: (strLower f).data) →
        detect_framework files language = none)) := by
  have hanyL : ∀ pat : String,
      (files.any fun f => strContains (strLower f) pat) = true ↔
        ∃ f ∈ files, pat.data <:+: (strLower f).data := by
    intro pat
    simp [List.any_eq_true, strContains_infix_iff]
  have hanyR : ∀ pat : String,
      (files.any fun f => strContains f pat) = true ↔
        ∃ f ∈ files, pat.data <:+: f.data := by
    intro pat
    simp [List.any_eq_true, strContains_infix_iff]
  have nL : ∀ pat : String, (∀ f ∈ files, ¬ pat.data <:+: (strLower f).data) →
      ¬((files.any fun f => strContains (strLower f) pat) = true) := by
    intro pat hall hb
    obtain ⟨f, hf, hi⟩ := (hanyL pat).mp hb
    exact hall f hf hi
  have nR : ∀ pat : String, (∀ f ∈ files, ¬ pat.data <:+: f.data) →
      ¬((files.any fun f => strContains f pat) = true) := by
    intro pat hall hb
    obtain ⟨f, hf, hi⟩ := (hanyR pat).mp hb
    exact hall f hf hi
  refine ⟨?_, ?_, ?_⟩
  · intro h1 h2
    unfold detect_framework
    rw [if_neg h1, if_neg h2]
  · intro hl
    subst hl
    refine ⟨?_, ?_, ?_, ?_, ?_⟩
    · intro hex
      unfold detect_framework
      rw [if_pos rfl, if_pos ((hanyL "django").mpr hex)]
    · intro hno hex
      unfold detect_framework
      rw [if_pos rfl, if_neg (nL "django" hno), if_pos ((hanyL "flask").mpr hex)]
    · intro hno hex
      unfold detect_framework
      rw [if_pos rfl, if_neg (nL "django" (fun f hf => (hno f hf).1)),
        if_neg (nL "flask" (fun f hf => (hno f hf).2)),
        if_pos ((hanyL "fastapi").mpr hex)]
    · intro hno hex
      unfold detect_framework
      rw [if_pos rfl, if_neg (nL "django" (fun f hf => (hno f hf).1)),
        if_neg (nL "flask" (fun f hf => (hno f hf).2.1)),
        if_neg (nL "fastapi" (fun f hf => (hno f hf).2.2)),
        if_pos ((hanyR "requirements.txt").mpr hex)]
    · intro hno
      unfold detect_framework
      rw [if_pos rfl, if_neg (nL "django" (fun f hf => (hno f hf).1)),
        if_neg (nL "flask" (fun f hf => (hno f hf).2.1)),
        if_neg (nL "fastapi" (fun f hf => (hno f hf).2.2.1)),
        if_neg (nR "requirements.txt" (fun f hf => (hno f hf).2.2.2))]
  · intro hl
    subst hl
    have hnp : ("JavaScript/TypeScript" : String) ≠ "Python" := by decide
    refine ⟨?_, ?_, ?_, ?_, ?_⟩
    · intro hex
      unfold detect_framework
      rw [if_neg hnp, if_pos rfl, if_pos ((hanyR "package.json").mpr hex)]
    · intro hno hex
      unfold detect_framework
      rw [if_neg hnp, if_pos rfl, if_neg (nR "package.json" hno),
        if_pos ((hanyL "react").mpr hex)]
    · intro hno hex
      unfold detect_framework
      rw [if_neg hnp, if_pos rfl,
        if_neg (nR "package.json" (fun f hf => (hno f hf).1)),
        if_neg (nL "react" (fun f hf => (hno f hf).2)),
        if_pos ((hanyL "vue").mpr hex)]
    · intro hno hex
      unfold detect_framework
      rw [if_neg hnp, if_pos rfl,
        if_neg (nR "package.json" (fun f hf => (hno f hf).1)),
        if_neg (nL "react" (fun f hf => (hno f hf).2.1)),
        if_neg (nL "vue" (fun f hf => (hno f hf).2.2)),
        if_pos ((hanyL "angular").mpr hex)]
    · intro hno
      unfold detect_framework
      rw [if_neg hnp, if_pos rfl,
        if_neg (nR "package.json" (fun f hf => (hno f hf).1)),
        if_neg (nL "react" (fun f hf => (hno f hf).2.1)),
        if_neg (nL "vue" (fun f hf => (hno f hf).2.2.1)),
        if_neg (nL "angular" (fun f hf => (hno f hf).2.2.2))]

/-- C7 witness: a JS/TS project containing both a `package.json` path and
a `react` path yields `Node.js` (the `package.json` test comes first). -/
theorem detect_framework_spec_witness :
    detect_framework ["src/package.json", "react-app.js"] "JavaScript/TypeScript" =
      some "Node.js" :=
  ((detect_framework_spec ["src/package.json", "react-app.js"]
      "JavaScript/TypeScript").2.2 rfl).1 ⟨"src/package.json", by decide, by decide⟩

/-- C5: for every file list, language, readable contents and manifest,
dependency extraction returns at most 10 entries and never a duplicate,
because the final step is `list(set(dependencies))[:10]`. -/
theorem extract_dependencies_bounded (files : List String) (language : String)
    (readFile : String → Option String) (pkg : Option PkgJson) :
    (extract_dependencies files language readFile pkg).length ≤ 10 ∧
    (extract_dependencies files language readFile pkg).Nodup := by
  unfold extract_dependencies
  constructor
  · exact List.length_take_le 10 _
  · exact List.Nodup.sublist (List.take_sublist 10 _) (List.nodup_dedup _)

set_option maxRecDepth 16384 in
theorem mit_in_simple (pi : ProjectInfo) :
    hasSub (simple_template pi) mitSentence := by
  unfold simple_template
  apply hasSub_append_right
  exact (strContains_infix_iff _ _).mp (by decide)

set_option maxRecDepth 16384 in
theorem mit_in_installation (pi : ProjectInfo) :
    hasSub (installation_template pi) mitSentence := by
  unfold installation_template
  apply hasSub_append_right
  exact (strContains_infix_iff _ _).mp (by decide)

set_option maxRecDepth 16384 in
theorem mit_in_advanced (pi : ProjectInfo) :
    hasSub (advanced_template pi) mitSentence := by
  unfold advanced_template
  apply hasSub_append_right
  exact (strContains_infix_iff _ _).mp (by decide)

theorem mit_in_template (pi : ProjectInfo) (t : String) :
    hasSub (generate_template_readme pi t) mitSentence := by
  unfold generate_template_readme
  split_ifs
  · exact mit_in_simple pi
  · exact mit_in_installation pi
  · exact mit_in_advanced pi

theorem hasSub_mit_ne_empty (s : String) (h : hasSub s mitSentence) : s ≠ "" := by
  intro he
  subst he
  exact absurd (List.IsInfix.length_le h) (by decide)

/-- C9: template generation is a pure function — equal descriptor and
type give byte-identical output — the output is never empty, and every
document type other than `simple` and `installation` produces the
`advanced` document. -/
theorem template_deterministic (pi pi' : ProjectInfo) (t t' : String)
    (hpi : pi' = pi) (ht : t' = t) :
    generate_template_readme pi' t' = generate_template_readme pi t ∧
    generate_template_readme pi t ≠ "" ∧
    (t ≠ "simple" → t ≠ "installation" →
      generate_template_readme pi t = advanced_template pi) := by
  subst hpi
  subst ht
  refine ⟨rfl, hasSub_mit_ne_empty _ (mit_in_template _ _), ?_⟩
  intro h1 h2
  unfold generate_template_readme
  rw [if_neg h1, if_neg h2]

/-- C9 witness: an unrecognized document type on a concrete descriptor
produces the advanced document. -/
theorem template_deterministic_witness :
    generate_template_readme
        ⟨"p", "d", "Python", none, [], [], ⟨[], [], [], []⟩, false, false, false, false⟩
        "weird" =
      advanced_template
        ⟨"p", "d", "Python", none, [], [], ⟨[], [], [], []⟩, false, false, false, false⟩ :=
  (template_deterministic
      ⟨"p", "d", "Python", none, [], [], ⟨[], [], [], []⟩, false, false, false, false⟩
      ⟨"p", "d", "Python", none, [], [], ⟨[], [], [], []⟩, false, false, false, false⟩
      "weird" "weird" rfl rfl).2.2 (by decide) (by decide)

/-- C10: for every descriptor and document type — in particular when
`has_license` is false — the template document contains the literal
sentence `This project is licensed under the MIT License`. -/
theorem template_mit_license (pi : ProjectInfo) (t : String) :
    hasSub (generate_template_readme pi t) mitSentence :=
  mit_in_template pi t

/-- C8: whenever a text-generation provider is configured and any of its
steps fails (pre-flight exception, missing model, non-200 status,
unparsable body, raising generation call), `generate_readme` returns the
template document for the same descriptor and type instead of
propagating the failure. -/
theorem generate_readme_fallback (cfg : ProviderConfig) (pi : ProjectInfo)
    (readme_type : String) (hc : providerConfigured cfg)
    (hf : providerFailed cfg) :
    generate_readme cfg pi readme_type = generate_template_readme pi readme_type := by
  cases cfg with
  | openaiCfg preflight call =>
    cases preflight with
    | error e => rfl
    | ok ms =>
      cases call with
      | error e =>
        simp only [generate_readme, generate_openai_readme]
        split <;> rfl
      | ok content =>
        rcases hf with h | ⟨ms', hm', hmiss⟩ | h
        · exact Except.noConfusion h
        · injection hm' with h'
          subst h'
          simp at hmiss
          simp [generate_readme, generate_openai_readme, hmiss]
        · exact Except.noConfusion h
  | anthropicCfg preflight call =>
    cases preflight with
    | error e => rfl
    | ok ms =>
      cases call with
      | error e =>
        simp only [generate_readme, generate_anthropic_readme]
        split <;> rfl
      | ok content =>
        rcases hf with h | ⟨ms', hm', hmiss⟩ | h
        · exact Except.noConfusion h
        · injection hm' with h'
          subst h'
          simp at hmiss
          simp [generate_readme, generate_anthropic_readme, hmiss]
        · exact Except.noConfusion h
  | googleCfg preflight call =>
    cases preflight with
    | error e => rfl
    | ok ms =>
      cases call with
      | error e =>
        simp only [generate_readme, generate_google_readme]
        split <;> rfl
      | ok text =>
        rcases hf with h | ⟨ms', hm', hmiss⟩ | h
        · exact Except.noConfusion h
        · injection hm' with h'
          subst h'
          simp at hmiss
          simp [generate_readme, generate_google_readme, hmiss]
        · exact Except.noConfusion h
  | huggingfaceCfg check post =>
    cases check with
    | error e => rfl
    | ok cs =>
      cases post with
      | error e =>
        simp only [generate_readme, generate_huggingface_readme]
        split <;> rfl
      | ok sb =>
        obtain ⟨s, b⟩ := sb
        cases b with
        | error e =>
          simp only [generate_readme, generate_huggingface_readme]
          split
          · rfl
          · split <;> rfl
        | ok body =>
          rcases hf with h | ⟨s', hs', hne⟩ | h | ⟨s', b', hp', hne⟩ | h
          · exact Except.noConfusion h
          · injection hs' with h'
            subst h'
            simp only [generate_readme, generate_huggingface_readme]
            rw [if_pos hne]
          · exact Except.noConfusion h
          · injection hp' with h'
            injection h' with h1 h2
            subst h1
            subst h2
            simp only [generate_readme, generate_huggingface_readme]
            split <;> rfl
          · injection h with h'
            injection h' with h1 h2
            exact Except.noConfusion h2
  | ollamaCfg tags post =>
    cases tags with
    | error e => rfl
    | ok tp =>
      obtain ⟨ts, parsed⟩ := tp
      cases parsed with
      | error e =>
        simp only [generate_readme, generate_ollama_readme]
        split <;> rfl
      | ok ms =>
        cases post with
        | error e =>
          simp only [generate_readme, generate_ollama_readme]
          split
          · rfl
          · split <;> rfl
        | ok sb =>
          obtain ⟨s, b⟩ := sb
          cases b with
          | error e =>
            simp only [generate_readme, generate_ollama_readme]
            split
            · rfl
            · split
              · rfl
              · split <;> rfl
          | ok resp =>
            rcases hf with h | ⟨s', p', hp', hne⟩ | ⟨s', hs'⟩ | ⟨s', ms', hm', hmiss⟩ | h | ⟨s', b', hq', hne⟩ | h
            · exact Except.noConfusion h
            · injection hp' with h'
              injection h' with h1 h2
              subst h1
              simp only [generate_readme, generate_ollama_readme]
              rw [if_pos hne]
            · injection hs' with h'
              injection h' with h1 h2
              exact Except.noConfusion h2
            · injection hm' with h'
              injection h' with h1 h2
              injection h2 with h3
              subst h3
              simp at hmiss
              simp [generate_readme, generate_ollama_readme, hmiss]
            · exact Except.noConfusion h
            · injection hq' with h'
              injection h' with h1 h2
              subst h1
              subst h2
              simp only [generate_readme, generate_ollama_readme]
              split
              · rfl
              · exact ite_self _
            · injection h with h'
              injection h' with h1 h2
              exact Except.noConfusion h2
  | noProvider => exact hf.elim

/-- C8 witness: the OpenAI path with a raising pre-flight call on a
concrete descriptor falls back to the template document. -/
theorem generate_readme_fallback_witness :
    providerConfigured (ProviderConfig.openaiCfg (Except.error ()) (Except.error ())) ∧
    providerFailed (ProviderConfig.openaiCfg (Except.error ()) (Except.error ())) ∧
    generate_readme (ProviderConfig.openaiCfg (Except.error ()) (Except.error ()))
        ⟨"p", "d", "Python", none, [], [], ⟨[], [], [], []⟩, false, false, false, false⟩
        "simple" =
      generate_template_readme
        ⟨"p", "d", "Python", none, [], [], ⟨[], [], [], []⟩, false, false, false, false⟩
        "simple" :=
  ⟨trivial, Or.inl rfl,
    generate_readme_fallback (ProviderConfig.openaiCfg (Except.error ()) (Except.error ()))
      ⟨"p", "d", "Python", none, [], [], ⟨[], [], [], []⟩, false, false, false, false⟩
      "simple" trivial (Or.inl rfl)⟩

end NeoGit
